import Mathlib

/-!
Verification of the `multimodal_fake_news_detection` Streamlit app
(`src/app.py`) against its natural-language specification.

The app is a single script: it collects a news claim (text or image),
builds a prompt, hands it to a LangChain agent backed by a remote
OpenAI chat model, and pattern-matches the free-text response for a
verdict keyword.  We shallowly embed the pure parts of the script
(string operations, prompt templates, guards, configuration records,
base64 encoding) as executable Lean definitions.  Remote calls
(`llm.invoke`, `search_agent.run`) are modelled by passing their
outcome as an `Except String String` value: `.ok r` is a normal
return with response `r`, `.error e` is a raised exception with
message `e`.
-/

/-! ## Python string primitives used by the script -/

/-- Python whitespace characters recognised by `str.split()` with no
arguments (ASCII fragment: space, tab, newline, carriage return,
vertical tab, form feed). -/
def pyIsSpace (c : Char) : Bool :=
  c = ' ' || c = '\t' || c = '\n' || c = '\r' || c = '\x0b' || c = '\x0c'

/-- Worker for `pySplit`: `cur` is the reversed run of non-space
characters currently being read. Mirrors CPython `str.split()` with no
separator: runs of whitespace delimit tokens and empty tokens are never
produced. -/
def pySplitAux (cur : List Char) : List Char → List String
  | [] => if cur.isEmpty then [] else [String.mk cur.reverse]
  | c :: rest =>
    if pyIsSpace c then
      if cur.isEmpty then pySplitAux [] rest
      else String.mk cur.reverse :: pySplitAux [] rest
    else pySplitAux (c :: cur) rest

/-- Python `s.split()` (no arguments): split on runs of whitespace,
discarding empty strings. -/
def pySplit (s : String) : List String :=
  pySplitAux [] s.data

/-- Python `s.upper()`, restricted to the ASCII range that the verdict
keywords live in: uppercase each character. -/
def pyUpper (s : String) : String :=
  String.mk (s.data.map Char.toUpper)

/-- Python truthiness of an `Optional[str]` value (`None` and the empty
string are falsy). -/
def pyTruthyOpt (a : Option String) : Bool :=
  match a with
  | none => false
  | some s => !s.isEmpty

/-- Boolean test that `p` is a prefix of `l`. -/
def pfxCheck : List Char → List Char → Bool
  | [], _ => true
  | _ :: _, [] => false
  | a :: as, b :: bs => a = b && pfxCheck as bs

/-- Substring test on character lists: `hasSubstrList pat hay` is true
iff `pat` occurs contiguously in `hay`. -/
def hasSubstrList (pat : List Char) : List Char → Bool
  | [] => pat.isEmpty
  | c :: rest => pfxCheck pat (c :: rest) || hasSubstrList pat rest

/-- Python-style `pat in s` substring test on strings. -/
def hasSubstr (s pat : String) : Bool :=
  hasSubstrList pat.data s.data

/-- Propositional form of "`pat` occurs verbatim inside `s`". -/
def containsSub (s pat : String) : Prop :=
  ∃ p q, s = p ++ pat ++ q

/-! ## Verdict extraction (src/app.py lines 258-263 and 312-317) -/

/-- The three verdict tags the page can render. -/
inductive Verdict where
  | fake
  | real
  | uncertain
deriving DecidableEq, Repr

/-- Verdict extraction as written in the text-analysis tab
(src/app.py lines 258-263):
`if "FAKE" in response.upper().split(): fake-tag`
`elif "REAL" in response.upper().split(): real-tag`
`else: uncertain-tag`. -/
def extractVerdictText (response : String) : Verdict :=
  if "FAKE" ∈ pySplit (pyUpper response) then Verdict.fake
  else if "REAL" ∈ pySplit (pyUpper response) then Verdict.real
  else Verdict.uncertain

/-- Verdict extraction as written in the image-analysis tab
(src/app.py lines 312-317); textually the same code as the text tab. -/
def extractVerdictImage (response : String) : Verdict :=
  if "FAKE" ∈ pySplit (pyUpper response) then Verdict.fake
  else if "REAL" ∈ pySplit (pyUpper response) then Verdict.real
  else Verdict.uncertain

example : extractVerdictText "Verdict: FAKE news" = Verdict.fake := by decide
example : extractVerdictText "this is REAL" = Verdict.real := by decide
example : extractVerdictText "it was FAKED" = Verdict.uncertain := by decide
example : extractVerdictText "FAKE. indeed" = Verdict.uncertain := by decide
example : extractVerdictText "really fake" = Verdict.fake := by decide
example : extractVerdictText "REALLY something" = Verdict.uncertain := by decide

/-! ## LLM client configuration (src/app.py lines 99-103, 141-145, 166-171) -/

/-- Arguments passed to the `ChatOpenAI` constructor. `streaming`
defaults to `false` when not passed. -/
structure ChatOpenAIConfig where
  model : String
  apiKey : String
  temperature : Nat
  streaming : Bool
deriving DecidableEq, Repr

/-- The client built inside `analyze_image` (src/app.py lines 141-145):
hard-coded model "gpt-4o", temperature 0, no streaming argument. -/
def analyzeImageLLM (openai_api_key : String) : ChatOpenAIConfig :=
  { model := "gpt-4o", apiKey := openai_api_key, temperature := 0, streaming := false }

/-- The client built inside `verify_news` (src/app.py lines 166-171):
the sidebar `model_choice`, temperature 0, streaming enabled. -/
def verifyNewsLLM (model_choice openai_api_key : String) : ChatOpenAIConfig :=
  { model := model_choice, apiKey := openai_api_key, temperature := 0, streaming := true }

/-- The sidebar model selector options (src/app.py lines 99-103); the
default selection is index 0. -/
def modelChoices : List String :=
  ["gpt-4o", "gpt-4-turbo", "gpt-3.5-turbo"]

/-! ## Tools and agent construction (src/app.py lines 73-77, 124-132, 173-185) -/

/-- The two LangChain tools the script can construct: the DuckDuckGo
search tool and the Wikipedia query tool. -/
inductive Tool where
  | search
  | wiki
deriving DecidableEq, Repr

/-- The module-level `search` variable (src/app.py lines 124-129): the
DuckDuckGo tool when the import succeeded, `None` otherwise. -/
def searchOpt (search_tool_available : Bool) : Option Tool :=
  if search_tool_available then some Tool.search else none

/-- The tool list built inside `verify_news` (src/app.py lines 173-177):
start empty, append `search` when it is not `None`, then append `wiki`. -/
def buildTools (search_tool_available : Bool) : List Tool :=
  let tools : List Tool := []
  let tools :=
    match searchOpt search_tool_available with
    | some s => tools ++ [s]
    | none => tools
  tools ++ [Tool.wiki]

/-- The agent object returned by `initialize_agent`
(src/app.py lines 179-185), recording the arguments it was built from. -/
structure Agent where
  tools : List Tool
  llm : ChatOpenAIConfig
  handleParsingErrors : Bool
  verbose : Bool
deriving DecidableEq, Repr

/-- The agent `verify_news` constructs when the API key is present. -/
def mkAgent (openai_api_key model_choice : String) (search_tool_available : Bool) : Agent :=
  { tools := buildTools search_tool_available
    llm := verifyNewsLLM model_choice openai_api_key
    handleParsingErrors := true
    verbose := true }

/-! ## analyze_image (src/app.py lines 135-158) -/

/-- The error message shown when no API key is available
(src/app.py lines 137 and 163). -/
def apiKeyErrorMsg : String :=
  "Please provide an OpenAI API key in the sidebar or set it as an environment variable"

/-- The data URL built for the vision call (src/app.py line 151). -/
def imageUrlFor (image_bytes : String) : String :=
  "data:image/jpeg;base64," ++ image_bytes

/-- Shallow embedding of `analyze_image` (src/app.py lines 135-158).
The remote call `llm.invoke(...)` is modelled by the argument `invoke`,
applied to the configuration the function builds; `.error e` stands for
a raised exception with message `e`.  The result is the list of error
messages displayed via `st.error` paired with the returned value
(`none` for Python `None`). -/
def analyze_image (openai_api_key : String)
    (invoke : ChatOpenAIConfig → Except String String) :
    List String × Option String :=
  if openai_api_key = "" then ([apiKeyErrorMsg], none)
  else
    match invoke (analyzeImageLLM openai_api_key) with
    | Except.ok content => ([], some content)
    | Except.error e => (["Error analyzing image: " ++ e], none)

/-! ## Prompt templates (src/app.py lines 187-227) -/

/-- Text of the f-string templates before the interpolated content
(both branches start identically). -/
def promptIntro : String :=
  "\n        Verify if the following content is genuine or fake news:\n        \n        "

/-- Label preceding the interpolated news content. -/
def newsMarker : String :=
  "NEWS CONTENT: "

/-- Blank template line (with the 8-space indentation of the f-string)
separating the sections. -/
def sectionGap : String :=
  "\n        \n        "

/-- Label preceding the interpolated image analysis. -/
def imageMarker : String :=
  "IMAGE ANALYSIS: "

/-- Trailing fixed part of both templates: the five instruction steps
and the response-format section. -/
def promptSteps : String :=
  "Steps:\n        1. Search for at least 3 credible sources related to this news.\n        2. Compare the news content with what you find in these sources.\n        3. Look for inconsistencies, exaggerations, or fabricated elements.\n        4. Provide a clear verdict: REAL, FAKE, or UNCERTAIN.\n        5. Explain your reasoning in detail.\n        \n        Format your response with:\n        - A verdict (REAL/FAKE/UNCERTAIN)\n        - Summary of findings from your search\n        - Explanation of your verdict\n        - List of red flags if any were found\n        "

/-- The prompt `verify_news` builds (src/app.py lines 187-227): the
image branch is taken iff `image_analysis` is truthy
(`if image_analysis:`). -/
def mkPrompt (content : String) (image_analysis : Option String) : String :=
  if pyTruthyOpt image_analysis then
    promptIntro ++ newsMarker ++ content ++ sectionGap ++ imageMarker
      ++ image_analysis.getD "" ++ sectionGap ++ promptSteps
  else
    promptIntro ++ newsMarker ++ content ++ sectionGap ++ promptSteps

/-! ## verify_news (src/app.py lines 161-229) -/

/-- Shallow embedding of `verify_news` (src/app.py lines 161-229):
the list of error messages displayed, paired with the returned pair.
Python returns `(None, None)` on a missing key and
`(search_agent, prompt)` otherwise, modelled as an
`Option (Agent × String)`. -/
def verify_news (openai_api_key model_choice : String)
    (search_tool_available : Bool) (content : String)
    (image_analysis : Option String) :
    List String × Option (Agent × String) :=
  if openai_api_key = "" then ([apiKeyErrorMsg], none)
  else
    ([], some (mkAgent openai_api_key model_choice search_tool_available,
               mkPrompt content image_analysis))

/-! ## Tab guards and run blocks (src/app.py lines 243-265, 285-319) -/

/-- Guard of the text pipeline (src/app.py line 243):
`if verify_text_button and news_text:`. -/
def textTabStarts (verify_text_button : Bool) (news_text : String) : Bool :=
  verify_text_button && !(news_text == "")

/-- An uploaded image file: the decoded picture plus the extension of
the upload. -/
structure PILImage where
  pixels : List Nat
deriving DecidableEq, Repr

/-- A file accepted by the uploader widget. -/
structure UploadedFile where
  img : PILImage
  ext : String
deriving DecidableEq, Repr

/-- Guard of the image pipeline (src/app.py line 285):
`if verify_image_button and uploaded_image:`. -/
def imageTabStarts (verify_image_button : Bool)
    (uploaded_image : Option UploadedFile) : Bool :=
  verify_image_button && uploaded_image.isSome

/-- Guard `if search_agent and prompt:` used by both tabs
(src/app.py lines 250 and 305) on the pair returned by `verify_news`. -/
def agentAndPromptTruthy (res : Option (Agent × String)) : Bool :=
  match res with
  | none => false
  | some (_, prompt) => !(prompt == "")

/-- The `search_agent.run` block of the text tab (src/app.py
lines 255-263): the run outcome is passed in as an `Except`; there is
no surrounding `try`, so an exception propagates unchanged, while a
normal response is displayed with its extracted verdict tag. -/
def textTabRun (runResult : Except String String) :
    Except String (String × Verdict) :=
  match runResult with
  | Except.error e => Except.error e
  | Except.ok response => Except.ok (response, extractVerdictText response)

/-- The `search_agent.run` block of the image tab (src/app.py
lines 309-317); same shape as the text tab. -/
def imageTabRun (runResult : Except String String) :
    Except String (String × Verdict) :=
  match runResult with
  | Except.error e => Except.error e
  | Except.ok response => Except.ok (response, extractVerdictImage response)

/-! ## Image upload processing (src/app.py lines 271, 286-293) -/

/-- Extensions accepted by the uploader (src/app.py line 271). -/
def acceptedImageTypes : List String :=
  ["jpg", "jpeg", "png"]

/-- The base64 alphabet of RFC 4648 used by `base64.b64encode`. -/
def b64Alphabet : List Char :=
  "ABCDEFGHIJKLMNOPQRSTUVWXYZabcdefghijklmnopqrstuvwxyz0123456789+/".data

/-- Character for a 6-bit group. -/
def b64Char (n : Nat) : Char :=
  b64Alphabet.getD n (Char.ofNat 65)

/-- Standard base64 of a byte list, three bytes at a time, with `=`
padding. -/
def b64encodeAux : List Nat → List Char
  | [] => []
  | [a] => [b64Char (a / 4), b64Char (a % 4 * 16), '=', '=']
  | [a, b] => [b64Char (a / 4), b64Char (a % 4 * 16 + b / 16), b64Char (b % 16 * 4), '=']
  | a :: b :: c :: rest =>
    b64Char (a / 4) :: b64Char (a % 4 * 16 + b / 16) :: b64Char (b % 16 * 4 + c / 64)
      :: b64Char (c % 64) :: b64encodeAux rest

/-- Python `base64.b64encode(...).decode("utf-8")`. -/
def b64encode (bytes : List Nat) : String :=
  String.mk (b64encodeAux bytes)

/-- The image conversion of the image tab (src/app.py lines 288-290):
`Image.open(uploaded_image).save(image_bytes, format="JPEG")` followed
by `base64.b64encode(image_bytes.getvalue()).decode("utf-8")`.  The
PIL encoder is modelled by the argument `pilSave` mapping a picture
and a format name to the encoded bytes; the script always passes the
literal format "JPEG". -/
def imageTabToBase64 (pilSave : PILImage → String → List Nat)
    (uploaded_image : UploadedFile) : String :=
  b64encode (pilSave uploaded_image.img "JPEG")

/-- The URL that reaches the vision model for an upload: the tab
computes `image_base64` and `analyze_image` embeds it in the data URL
(src/app.py lines 151, 290, 293). -/
def imageTabUrl (pilSave : PILImage → String → List Nat)
    (uploaded_image : UploadedFile) : String :=
  imageUrlFor (imageTabToBase64 pilSave uploaded_image)

/-- ASCII check: every character is below code point 128. -/
def isAsciiStr (s : String) : Bool :=
  s.data.all (fun c => c.toNat < 128)

example : b64encode [77, 97, 110] = "TWFu" := by decide
example : b64encode [77, 97] = "TWE=" := by decide
example : b64encode [77] = "TQ==" := by decide
example : b64encode [] = "" := by decide
example : hasSubstr (pyUpper "it was FAKED") "FAKE" = true := by decide

/-! ## Substring theory -/

/-- Boolean suffix test. -/
def sfxCheck (p l : List Char) : Bool :=
  pfxCheck p.reverse l.reverse

theorem pfxCheck_iff (p l : List Char) : pfxCheck p l = true ↔ ∃ t, p ++ t = l := by
  induction p generalizing l with
  | nil => simp [pfxCheck]
  | cons a as ih =>
    cases l with
    | nil => simp [pfxCheck]
    | cons b bs =>
      simp only [pfxCheck, Bool.and_eq_true, decide_eq_true_eq, ih, List.cons_append]
      constructor
      · rintro ⟨rfl, t, rfl⟩
        exact ⟨t, rfl⟩
      · rintro ⟨t, ht⟩
        injection ht with h1 h2
        exact ⟨h1, t, h2⟩

theorem sfxCheck_iff (p l : List Char) : sfxCheck p l = true ↔ ∃ u, u ++ p = l := by
  unfold sfxCheck
  rw [pfxCheck_iff]
  constructor
  · rintro ⟨t, ht⟩
    refine ⟨t.reverse, ?_⟩
    have h := congrArg List.reverse ht
    simpa using h
  · rintro ⟨u, rfl⟩
    exact ⟨u.reverse, by simp⟩

theorem hasSubstrList_iff (pat hay : List Char) :
    hasSubstrList pat hay = true ↔ ∃ p q, hay = p ++ pat ++ q := by
  induction hay with
  | nil =>
    simp only [hasSubstrList, List.isEmpty_iff]
    constructor
    · rintro rfl
      exact ⟨[], [], rfl⟩
    · rintro ⟨p, q, h⟩
      rcases List.append_eq_nil.mp h.symm with ⟨h1, -⟩
      exact (List.append_eq_nil.mp h1).2
  | cons c rest ih =>
    simp only [hasSubstrList, Bool.or_eq_true, pfxCheck_iff, ih]
    constructor
    · rintro (⟨t, ht⟩ | ⟨p, q, hpq⟩)
      · exact ⟨[], t, by simp [← ht]⟩
      · exact ⟨c :: p, q, by simp [hpq]⟩
    · rintro ⟨p, q, hpq⟩
      cases p with
      | nil =>
        left
        exact ⟨q, by simpa using hpq.symm⟩
      | cons x xs =>
        right
        rw [List.cons_append, List.cons_append] at hpq
        injection hpq with h1 h2
        exact ⟨xs, q, h2⟩

theorem containsSub_iff_list (s pat : String) :
    containsSub s pat ↔ ∃ p q, s.data = p ++ pat.data ++ q := by
  constructor
  · rintro ⟨p, q, rfl⟩
    exact ⟨p.data, q.data, by simp [String.data_append]⟩
  · rintro ⟨p, q, h⟩
    refine ⟨String.mk p, String.mk q, String.ext ?_⟩
    simpa [String.data_append] using h

theorem hasSubstr_iff (s pat : String) :
    hasSubstr s pat = true ↔ containsSub s pat := by
  rw [containsSub_iff_list]
  exact hasSubstrList_iff pat.data s.data

theorem containsSub_of_check (s pat : String) (h : hasSubstr s pat = true) :
    containsSub s pat :=
  (hasSubstr_iff s pat).mp h

/-- Decomposition of an occurrence inside an append: the pattern lies
in the left part, in the right part, or straddles the boundary, in
which case a nonempty proper prefix of the pattern is a suffix of the
left part and the remaining nonempty part is a prefix of the right
part. -/
theorem occ_append_split (pat s t : List Char)
    (h : ∃ p q, s ++ t = p ++ pat ++ q) :
    (∃ p q, s = p ++ pat ++ q) ∨ (∃ p q, t = p ++ pat ++ q) ∨
    (∃ k, 0 < k ∧ k < pat.length ∧
      (∃ u, u ++ pat.take k = s) ∧ (∃ v, pat.drop k ++ v = t)) := by
  obtain ⟨p, q, hpq⟩ := h
  by_cases h1 : p.length + pat.length ≤ s.length
  · left
    have hs : s = (p ++ pat ++ q).take s.length := by
      rw [← hpq]
      exact (List.take_left s t).symm
    obtain ⟨m, hm⟩ : ∃ m, s.length = (p ++ pat).length + m := by
      refine ⟨s.length - (p ++ pat).length, ?_⟩
      simp only [List.length_append]
      omega
    rw [hm, List.take_append] at hs
    exact ⟨p, q.take m, hs⟩
  · by_cases h2 : s.length ≤ p.length
    · right
      left
      have hp : p.take s.length = s := by
        have hstep : (p ++ (pat ++ q)).take s.length = p.take s.length :=
          List.take_append_of_le_length h2
        rw [← List.append_assoc, ← hpq, List.take_left] at hstep
        exact hstep.symm
      have hpsplit : p = s ++ p.drop s.length := by
        conv_lhs => rw [← List.take_append_drop s.length p]
        rw [hp]
      rw [hpsplit] at hpq
      have heq : s ++ t = s ++ (p.drop s.length ++ pat ++ q) := by
        rw [hpq]
        simp [List.append_assoc]
      exact ⟨p.drop s.length, q, List.append_cancel_left heq⟩
    · right
      right
      push_neg at h1 h2
      have key : s.drop p.length ++ t = pat ++ q := by
        have hstep := congrArg (List.drop p.length) hpq
        rw [List.drop_append_of_le_length (Nat.le_of_lt h2)] at hstep
        rw [List.append_assoc, List.drop_left] at hstep
        exact hstep
      have hlen : (s.drop p.length).length = s.length - p.length :=
        List.length_drop _ _
      have htake : s.drop p.length = pat.take (s.length - p.length) := by
        have h3 : (s.drop p.length ++ t).take (s.length - p.length) = s.drop p.length := by
          rw [← hlen]
          exact List.take_left _ _
        rw [key, List.take_append_of_le_length (by omega)] at h3
        exact h3.symm
      refine ⟨s.length - p.length, by omega, by omega, ?_, ?_⟩
      · refine ⟨s.take p.length, ?_⟩
        rw [← htake]
        exact List.take_append_drop _ _
      · have h5 : (s.drop p.length ++ t).drop (s.length - p.length) = t := by
          rw [← hlen]
          exact List.drop_left _ _
        rw [key, List.drop_append_of_le_length (by omega)] at h5
        exact ⟨q, h5⟩

/-- A checked scan refuting every straddle of the left boundary: no
nonempty proper prefix of `pat` is a suffix of `A`. -/
theorem no_take_sfx (pat A : List Char)
    (hchk : (List.range pat.length).all
      (fun k => k == 0 || !(sfxCheck (pat.take k) A)) = true) :
    ∀ k, 0 < k → k < pat.length → ¬ ∃ u, u ++ pat.take k = A := by
  intro k hk hklen hex
  have hall := List.all_eq_true.mp hchk k (List.mem_range.mpr hklen)
  have hsfx := (sfxCheck_iff (pat.take k) A).mpr hex
  simp only [Bool.or_eq_true, beq_iff_eq, Bool.not_eq_eq_eq_not, Bool.not_true] at hall
  rcases hall with h0 | hfalse
  · omega
  · rw [hsfx] at hfalse
    cases hfalse

/-- A checked scan refuting every straddle of the right boundary: no
nonempty proper suffix of `pat` is a prefix of `B`. -/
theorem no_drop_pfx (pat B : List Char)
    (hchk : (List.range pat.length).all
      (fun k => k == 0 || !(pfxCheck (pat.drop k) B)) = true) :
    ∀ k, 0 < k → k < pat.length → ¬ ∃ v, pat.drop k ++ v = B := by
  intro k hk hklen hex
  have hall := List.all_eq_true.mp hchk k (List.mem_range.mpr hklen)
  have hpfx := (pfxCheck_iff (pat.drop k) B).mpr hex
  simp only [Bool.or_eq_true, beq_iff_eq, Bool.not_eq_eq_eq_not, Bool.not_true] at hall
  rcases hall with h0 | hfalse
  · omega
  · rw [hpfx] at hfalse
    cases hfalse

theorem containsSub_appL (u s pat : String) (h : containsSub s pat) :
    containsSub (u ++ s) pat := by
  obtain ⟨p, q, rfl⟩ := h
  refine ⟨u ++ p, q, String.ext ?_⟩
  simp [String.data_append, List.append_assoc]

set_option maxRecDepth 100000 in
/-- The fixed parts of the no-image template never contain the image
marker, and the marker cannot straddle the boundaries with the
interpolated content, so a no-image prompt contains the marker only if
the news content itself does. -/
theorem mkPrompt_no_marker (content : String) (image_analysis : Option String)
    (hc : ¬ containsSub content imageMarker)
    (ha : pyTruthyOpt image_analysis = false) :
    ¬ containsSub (mkPrompt content image_analysis) imageMarker := by
  intro hcon
  rw [containsSub_iff_list] at hcon
  have hdata : (mkPrompt content image_analysis).data =
      (promptIntro.data ++ newsMarker.data)
        ++ (content.data ++ (sectionGap.data ++ promptSteps.data)) := by
    simp [mkPrompt, ha, String.data_append, List.append_assoc]
  rw [hdata] at hcon
  rcases occ_append_split imageMarker.data _ _ hcon with
    hA | hrest | ⟨k, hk0, hklen, ⟨u, hu⟩, -⟩
  · have hchk : hasSubstrList imageMarker.data
        (promptIntro.data ++ newsMarker.data) = true :=
      (hasSubstrList_iff _ _).mpr hA
    exact absurd hchk (by decide)
  · rcases occ_append_split imageMarker.data _ _ hrest with
      hc2 | hB | ⟨k, hk0, hklen, -, ⟨v, hv⟩⟩
    · exact hc ((containsSub_iff_list content imageMarker).mpr hc2)
    · have hchk : hasSubstrList imageMarker.data
          (sectionGap.data ++ promptSteps.data) = true :=
        (hasSubstrList_iff _ _).mpr hB
      exact absurd hchk (by decide)
    · exact no_drop_pfx imageMarker.data (sectionGap.data ++ promptSteps.data)
        (by decide) k hk0 hklen ⟨v, hv⟩
  · exact no_take_sfx imageMarker.data (promptIntro.data ++ newsMarker.data)
      (by decide) k hk0 hklen ⟨u, hu⟩

/-- Every base64 output character is in the 64-character alphabet or is
the padding character, hence ASCII. -/
theorem b64Char_lt (n : Nat) : (b64Char n).toNat < 128 := by
  by_cases h : n < 64
  · have hall : ∀ m, m < 64 → (b64Char m).toNat < 128 := by decide
    exact hall n h
  · have hdef : b64Char n = Char.ofNat 65 := by
      unfold b64Char
      apply List.getD_eq_default
      have hlen : b64Alphabet.length = 64 := by decide
      omega
    rw [hdef]
    decide

theorem b64encodeAux_ascii : ∀ (bytes : List Nat), ∀ c ∈ b64encodeAux bytes, c.toNat < 128
  | [] => by simp [b64encodeAux]
  | [a] => by
    intro c hc
    simp only [b64encodeAux, List.mem_cons, List.not_mem_nil, or_false] at hc
    rcases hc with rfl | rfl | rfl | rfl
    · exact b64Char_lt _
    · exact b64Char_lt _
    · decide
    · decide
  | [a, b] => by
    intro c hc
    simp only [b64encodeAux, List.mem_cons, List.not_mem_nil, or_false] at hc
    rcases hc with rfl | rfl | rfl | rfl
    · exact b64Char_lt _
    · exact b64Char_lt _
    · exact b64Char_lt _
    · decide
  | a :: b :: c :: rest => by
    intro ch hch
    simp only [b64encodeAux, List.mem_cons] at hch
    rcases hch with rfl | rfl | rfl | rfl | hmem
    · exact b64Char_lt _
    · exact b64Char_lt _
    · exact b64Char_lt _
    · exact b64Char_lt _
    · exact b64encodeAux_ascii rest ch hmem

theorem b64encode_ascii (bytes : List Nat) : isAsciiStr (b64encode bytes) = true := by
  unfold isAsciiStr b64encode
  rw [List.all_eq_true]
  intro c hc
  simpa using b64encodeAux_ascii bytes c (by simpa using hc)

/-! ## Claims -/

/-- C1: for every response string, the displayed verdict tag is chosen
by exact whitespace-token membership in the uppercased response, with
FAKE taking priority over REAL, and exactly one of the three tags
FAKE / REAL / UNCERTAIN is always selected. -/
theorem claim1_theorem (r : String) :
    (extractVerdictText r = Verdict.fake ∨ extractVerdictText r = Verdict.real ∨
      extractVerdictText r = Verdict.uncertain) ∧
    (extractVerdictText r = Verdict.fake ↔ "FAKE" ∈ pySplit (pyUpper r)) ∧
    (extractVerdictText r = Verdict.real ↔
      ("FAKE" ∉ pySplit (pyUpper r) ∧ "REAL" ∈ pySplit (pyUpper r))) ∧
    (extractVerdictText r = Verdict.uncertain ↔
      ("FAKE" ∉ pySplit (pyUpper r) ∧ "REAL" ∉ pySplit (pyUpper r))) := by
  unfold extractVerdictText
  by_cases hf : "FAKE" ∈ pySplit (pyUpper r) <;>
    by_cases hr : "REAL" ∈ pySplit (pyUpper r) <;>
      simp [hf, hr]

/-- C2 counterexample: the claim says verdict extraction is a
case-insensitive substring search, so a response containing "fake"
inside a longer word ("FAKED") or next to punctuation ("FAKE.") would
select the fake-tag; the code instead tokenises on whitespace and
selects the uncertain-tag for both. -/
theorem claim2_counterexample :
    hasSubstr (pyUpper "It was FAKED") "FAKE" = true ∧
    extractVerdictText "It was FAKED" = Verdict.uncertain ∧
    hasSubstr (pyUpper "FAKE.") "FAKE" = true ∧
    extractVerdictText "FAKE." = Verdict.uncertain := by
  decide

/-- C2 (amended): verdict extraction is an exact whitespace-token
match on the uppercased response, not a substring search: the fake-tag
is selected whenever "FAKE" occurs as a whole whitespace-delimited
token, and the real-tag whenever "REAL" occurs as a whole token and
"FAKE" does not; occurrences of the keywords strictly inside longer
tokens do not count. -/
theorem claim2_theorem (r : String) :
    ("FAKE" ∈ pySplit (pyUpper r) → extractVerdictText r = Verdict.fake) ∧
    ("FAKE" ∉ pySplit (pyUpper r) → "REAL" ∈ pySplit (pyUpper r) →
      extractVerdictText r = Verdict.real) := by
  unfold extractVerdictText
  by_cases hf : "FAKE" ∈ pySplit (pyUpper r) <;>
    by_cases hr : "REAL" ∈ pySplit (pyUpper r) <;>
      simp [hf, hr]

theorem claim2_witness :
    extractVerdictText "Verdict: FAKE" = Verdict.fake ∧
    extractVerdictText "Verdict: REAL" = Verdict.real :=
  ⟨( claim2_theorem "Verdict: FAKE").1 (by decide),
   ( claim2_theorem "Verdict: REAL").2 (by decide) (by decide)⟩

/-- C3 counterexample: the `search_agent.run` calls of both tabs have
no surrounding exception handler, so a raised exception (modelled by
`Except.error`) propagates out of the run block unchanged instead of
being turned into a displayed message. -/
theorem claim3_counterexample :
    textTabRun (Except.error "APITimeoutError") = Except.error "APITimeoutError" ∧
    imageTabRun (Except.error "APITimeoutError") = Except.error "APITimeoutError" :=
  ⟨rfl, rfl⟩

/-- C3 (amended): `analyze_image` catches every exception of its model
invocation, displays "Error analyzing image: ..." and returns None,
and returns the response unchanged on success; but the
`search_agent.run` calls of the two tabs are not wrapped in any
handler, so an exception raised there escapes uncaught. -/
theorem claim3_theorem (openai_api_key e : String) (hk : ¬ openai_api_key = "") :
    analyze_image openai_api_key (fun _ => Except.error e)
      = (["Error analyzing image: " ++ e], none) ∧
    (∀ resp, analyze_image openai_api_key (fun _ => Except.ok resp) = ([], some resp)) ∧
    textTabRun (Except.error e) = Except.error e ∧
    imageTabRun (Except.error e) = Except.error e := by
  unfold analyze_image textTabRun imageTabRun
  simp [hk]

theorem claim3_witness :
    analyze_image "sk-key" (fun _ => Except.error "boom")
      = (["Error analyzing image: " ++ "boom"], none) ∧
    (∀ resp, analyze_image "sk-key" (fun _ => Except.ok resp) = ([], some resp)) ∧
    textTabRun (Except.error "boom") = Except.error "boom" ∧
    imageTabRun (Except.error "boom") = Except.error "boom" :=
  claim3_theorem "sk-key" "boom" (by decide)

/-- C4: with an empty API key, `analyze_image` displays the key error
and returns None no matter what the model call would have produced
(so no remote call can influence anything), `verify_news` displays the
key error and returns the None pair without building an agent or a
prompt, and both callers' follow-up guards
(`if search_agent and prompt:` and `if image_analysis:`) then fail, so
the subsequent analysis steps are skipped. -/
theorem claim4_theorem (invoke : ChatOpenAIConfig → Except String String)
    (model_choice content : String) (search_tool_available : Bool)
    (image_analysis : Option String) :
    analyze_image "" invoke = ([apiKeyErrorMsg], none) ∧
    verify_news "" model_choice search_tool_available content image_analysis
      = ([apiKeyErrorMsg], none) ∧
    agentAndPromptTruthy
      (verify_news "" model_choice search_tool_available content image_analysis).2
      = false ∧
    pyTruthyOpt (analyze_image "" invoke).2 = false := by
  unfold analyze_image verify_news
  simp [agentAndPromptTruthy, pyTruthyOpt]

/-- C6: the text pipeline guard passes exactly when the Verify Text
button was pressed and the text area is non-empty, and the image
pipeline guard passes exactly when the Analyze Image button was
pressed and an image was uploaded; an empty text area or a missing
upload never starts an analysis. -/
theorem claim6_theorem (verify_text_button verify_image_button : Bool)
    (news_text : String) (uploaded_image : Option UploadedFile) :
    (textTabStarts verify_text_button news_text = true ↔
      verify_text_button = true ∧ news_text ≠ "") ∧
    textTabStarts verify_text_button "" = false ∧
    (imageTabStarts verify_image_button uploaded_image = true ↔
      verify_image_button = true ∧ ∃ f, uploaded_image = some f) ∧
    imageTabStarts verify_image_button none = false := by
  unfold textTabStarts imageTabStarts
  refine ⟨?_, by simp, ?_, by simp⟩
  · simp
  · simp [Option.isSome_iff_exists]

/-- C7: for every upload, the pixel data is re-encoded with the fixed
format string "JPEG", the resulting bytes are base64-encoded into an
ASCII string, and that string is embedded into the
`data:image/jpeg;base64,` URL handed to the model; the conversion
ignores the upload extension (so the accepted "png" uploads are
converted to JPEG bytes too). -/
theorem claim7_theorem (pilSave : PILImage → String → List Nat)
    (img : PILImage) (ext : String) :
    "png" ∈ acceptedImageTypes ∧
    (∀ u : UploadedFile,
      imageTabUrl pilSave u
        = "data:image/jpeg;base64," ++ b64encode (pilSave u.img "JPEG")) ∧
    imageTabToBase64 pilSave { img := img, ext := ext }
      = imageTabToBase64 pilSave { img := img, ext := "jpg" } ∧
    isAsciiStr (imageTabToBase64 pilSave { img := img, ext := ext }) = true := by
  refine ⟨by decide, fun u => rfl, rfl, ?_⟩
  exact b64encode_ascii _

/-- C8: `analyze_image` builds its client from the constant
configuration (model "gpt-4o", temperature 0) whatever the sidebar
selection is — its result depends on the model call only through that
configuration — while `verify_news` builds its client from the
user-selected `model_choice`; "gpt-4o" is the default sidebar entry. -/
theorem claim8_theorem (openai_api_key model_choice : String)
    (f g : ChatOpenAIConfig → Except String String)
    (h : ∀ cfg, cfg.model = "gpt-4o" → cfg.temperature = 0 → f cfg = g cfg) :
    analyze_image openai_api_key f = analyze_image openai_api_key g ∧
    (analyzeImageLLM openai_api_key).model = "gpt-4o" ∧
    (analyzeImageLLM openai_api_key).temperature = 0 ∧
    (verifyNewsLLM model_choice openai_api_key).model = model_choice ∧
    (verifyNewsLLM model_choice openai_api_key).temperature = 0 ∧
    modelChoices.get? 0 = some "gpt-4o" := by
  refine ⟨?_, rfl, rfl, rfl, rfl, rfl⟩
  unfold analyze_image
  rw [h (analyzeImageLLM openai_api_key) rfl rfl]

theorem claim8_witness :
    analyze_image "sk" (fun _ => Except.ok "desc")
      = analyze_image "sk" (fun _ => Except.ok "desc") ∧
    (analyzeImageLLM "sk").model = "gpt-4o" ∧
    (analyzeImageLLM "sk").temperature = 0 ∧
    (verifyNewsLLM "gpt-3.5-turbo" "sk").model = "gpt-3.5-turbo" ∧
    (verifyNewsLLM "gpt-3.5-turbo" "sk").temperature = 0 ∧
    modelChoices.get? 0 = some "gpt-4o" :=
  claim8_theorem "sk" "gpt-3.5-turbo" (fun _ => Except.ok "desc")
    (fun _ => Except.ok "desc") (fun _ _ _ => rfl)

/-- C9: the verdict extraction of the text tab and the one of the
image tab are the same function — on every response string they
select the same tag, and the whole run blocks agree as well. -/
theorem claim9_theorem (r : String) :
    extractVerdictText r = extractVerdictImage r ∧
    (∀ res : Except String String, textTabRun res = imageTabRun res) := by
  refine ⟨rfl, fun res => ?_⟩
  cases res <;> rfl

/-- C10: the tool list handed to `initialize_agent` always ends with
the Wikipedia tool, starts with the DuckDuckGo search tool exactly
when the import succeeded, and the agent is still constructed from the
Wikipedia-only list when search is unavailable. -/
theorem claim10_theorem (openai_api_key model_choice content : String)
    (search_tool_available : Bool) (image_analysis : Option String)
    (hk : ¬ openai_api_key = "") :
    (buildTools search_tool_available).getLast? = some Tool.wiki ∧
    ((buildTools search_tool_available).head? = some Tool.search ↔
      search_tool_available = true) ∧
    (search_tool_available = true →
      buildTools search_tool_available = [Tool.search, Tool.wiki]) ∧
    (search_tool_available = false →
      buildTools search_tool_available = [Tool.wiki]) ∧
    (verify_news openai_api_key model_choice search_tool_available content
        image_analysis).2
      = some (mkAgent openai_api_key model_choice search_tool_available,
              mkPrompt content image_analysis) ∧
    (mkAgent openai_api_key model_choice search_tool_available).tools
      = buildTools search_tool_available := by
  unfold verify_news
  cases search_tool_available <;>
    simp [hk, buildTools, searchOpt, mkAgent]

theorem claim10_witness :
    (buildTools false).getLast? = some Tool.wiki ∧
    ((buildTools false).head? = some Tool.search ↔ false = true) ∧
    (false = true → buildTools false = [Tool.search, Tool.wiki]) ∧
    (false = false → buildTools false = [Tool.wiki]) ∧
    (verify_news "sk" "gpt-4o" false "some text" none).2
      = some (mkAgent "sk" "gpt-4o" false, mkPrompt "some text" none) ∧
    (mkAgent "sk" "gpt-4o" false).tools = buildTools false :=
  claim10_theorem "sk" "gpt-4o" "some text" false none (by decide)

set_option maxRecDepth 100000 in
/-- C5 counterexample: the claim states the prompt contains an
"IMAGE ANALYSIS:" block with the analysis verbatim exactly when the
analysis value is truthy, for every content string.  But the content
is interpolated verbatim, so a content string that itself carries the
marker makes the prompt contain "IMAGE ANALYSIS: " followed by the
(empty) analysis even though `some ""` is falsy and the no-image
branch was taken. -/
theorem claim5_counterexample :
    pyTruthyOpt (some "") = false ∧
    hasSubstr (mkPrompt "IMAGE ANALYSIS: moon" (some "")) ("IMAGE ANALYSIS: " ++ "") = true ∧
    containsSub (mkPrompt "IMAGE ANALYSIS: moon" (some "")) ("IMAGE ANALYSIS: " ++ "") :=
  ⟨by decide, by decide,
   containsSub_of_check _ _ (by decide)⟩

set_option maxRecDepth 100000 in
/-- C5 (amended): for every content string `c` that does not itself
contain the substring "IMAGE ANALYSIS: ", and every analysis value
`a`, `verify_news` with a non-empty key returns the prompt built by
the template: it contains "NEWS CONTENT: " followed by `c` verbatim,
the five fixed instruction steps and the response-format section with
the REAL/FAKE/UNCERTAIN options, and it contains "IMAGE ANALYSIS: "
followed by `a` verbatim exactly when `a` is truthy (non-None and
non-empty). -/
theorem claim5_theorem (openai_api_key model_choice content : String)
    (search_tool_available : Bool) (image_analysis : Option String)
    (hk : ¬ openai_api_key = "")
    (hinj : ¬ containsSub content imageMarker) :
    (verify_news openai_api_key model_choice search_tool_available content
        image_analysis).2
      = some (mkAgent openai_api_key model_choice search_tool_available,
              mkPrompt content image_analysis) ∧
    containsSub (mkPrompt content image_analysis) ("NEWS CONTENT: " ++ content) ∧
    containsSub (mkPrompt content image_analysis)
      "1. Search for at least 3 credible sources related to this news." ∧
    containsSub (mkPrompt content image_analysis)
      "2. Compare the news content with what you find in these sources." ∧
    containsSub (mkPrompt content image_analysis)
      "3. Look for inconsistencies, exaggerations, or fabricated elements." ∧
    containsSub (mkPrompt content image_analysis)
      "4. Provide a clear verdict: REAL, FAKE, or UNCERTAIN." ∧
    containsSub (mkPrompt content image_analysis)
      "5. Explain your reasoning in detail." ∧
    containsSub (mkPrompt content image_analysis)
      "Format your response with:\n        - A verdict (REAL/FAKE/UNCERTAIN)" ∧
    (pyTruthyOpt image_analysis = true →
      containsSub (mkPrompt content image_analysis)
        ("IMAGE ANALYSIS: " ++ image_analysis.getD "")) ∧
    (pyTruthyOpt image_analysis = false →
      ¬ containsSub (mkPrompt content image_analysis) "IMAGE ANALYSIS: ") := by
  have hT : pyTruthyOpt image_analysis = true →
      mkPrompt content image_analysis
        = promptIntro ++ newsMarker ++ content ++ sectionGap ++ imageMarker
            ++ image_analysis.getD "" ++ sectionGap ++ promptSteps := by
    intro h
    simp [mkPrompt, h]
  have hF : pyTruthyOpt image_analysis = false →
      mkPrompt content image_analysis
        = promptIntro ++ newsMarker ++ content ++ sectionGap ++ promptSteps := by
    intro h
    simp [mkPrompt, h]
  have hsteps : ∀ pat : String, hasSubstr promptSteps pat = true →
      containsSub (mkPrompt content image_analysis) pat := by
    intro pat hpat
    have hstep := containsSub_of_check _ _ hpat
    cases hcase : pyTruthyOpt image_analysis
    · rw [hF hcase]
      exact containsSub_appL _ _ _ hstep
    · rw [hT hcase]
      exact containsSub_appL _ _ _ hstep
  refine ⟨?_, ?_, hsteps _ (by decide), hsteps _ (by decide), hsteps _ (by decide),
    hsteps _ (by decide), hsteps _ (by decide), hsteps _ (by decide), ?_, ?_⟩
  · unfold verify_news
    simp [hk]
  · cases hcase : pyTruthyOpt image_analysis
    · rw [hF hcase]
      refine ⟨promptIntro, sectionGap ++ promptSteps, String.ext ?_⟩
      simp [String.data_append, List.append_assoc, newsMarker]
    · rw [hT hcase]
      refine ⟨promptIntro,
        sectionGap ++ imageMarker ++ image_analysis.getD "" ++ sectionGap ++ promptSteps,
        String.ext ?_⟩
      simp [String.data_append, List.append_assoc, newsMarker]
  · intro hcase
    rw [hT hcase]
    refine ⟨promptIntro ++ newsMarker ++ content ++ sectionGap,
      sectionGap ++ promptSteps, String.ext ?_⟩
    simp [String.data_append, List.append_assoc, imageMarker]
  · intro hcase
    exact mkPrompt_no_marker content image_analysis hinj hcase

set_option maxRecDepth 100000 in
theorem claim5_witness :
    (verify_news "sk-123" "gpt-4o" true "The moon is made of green cheese"
        (some "a photo of the moon")).2
      = some (mkAgent "sk-123" "gpt-4o" true,
              mkPrompt "The moon is made of green cheese" (some "a photo of the moon")) ∧
    containsSub (mkPrompt "The moon is made of green cheese" (some "a photo of the moon"))
      ("NEWS CONTENT: " ++ "The moon is made of green cheese") ∧
    containsSub (mkPrompt "The moon is made of green cheese" (some "a photo of the moon"))
      "1. Search for at least 3 credible sources related to this news." ∧
    containsSub (mkPrompt "The moon is made of green cheese" (some "a photo of the moon"))
      "2. Compare the news content with what you find in these sources." ∧
    containsSub (mkPrompt "The moon is made of green cheese" (some "a photo of the moon"))
      "3. Look for inconsistencies, exaggerations, or fabricated elements." ∧
    containsSub (mkPrompt "The moon is made of green cheese" (some "a photo of the moon"))
      "4. Provide a clear verdict: REAL, FAKE, or UNCERTAIN." ∧
    containsSub (mkPrompt "The moon is made of green cheese" (some "a photo of the moon"))
      "5. Explain your reasoning in detail." ∧
    containsSub (mkPrompt "The moon is made of green cheese" (some "a photo of the moon"))
      "Format your response with:\n        - A verdict (REAL/FAKE/UNCERTAIN)" ∧
    (pyTruthyOpt (some "a photo of the moon") = true →
      containsSub (mkPrompt "The moon is made of green cheese" (some "a photo of the moon"))
        ("IMAGE ANALYSIS: " ++ (some "a photo of the moon").getD "")) ∧
    (pyTruthyOpt (some "a photo of the moon") = false →
      ¬ containsSub (mkPrompt "The moon is made of green cheese" (some "a photo of the moon"))
          "IMAGE ANALYSIS: ") :=
  claim5_theorem "sk-123" "gpt-4o" "The moon is made of green cheese" true
    (some "a photo of the moon") (by decide)
    (fun h => absurd ((hasSubstr_iff _ _).mpr h) (by decide))
